import Mathlib

/-!
A verification development for the pluto automation framework
(event bus, component registry, instruction scheduler).

The definitions below are shallow embeddings of the Python source files:
  pluto/eventbus/eventbus.py
  pluto/component/component.py
  pluto/scheduler/instruction.py
  pluto/scheduler/scheduler.py
  pluto/scheduler/instructions/wait.py and wait_util.py
  pluto/scheduler/instructions/repeat.py

Time is modelled in deciseconds (one tick = 0.1 s, the polling interval used
by the wait runners), so all timing is over `Nat`.
-/

/-- A Python runtime value, as far as the embedded code needs to
distinguish values.  Only `exc` values are raisable: Python's bare
`raise x` raises `x` when it is a `BaseException` instance and raises
`TypeError` otherwise. -/
inductive PyVal where
  | pyNone : PyVal
  | num (n : Int) : PyVal
  | str (s : String) : PyVal
  | exc (e : String) : PyVal
deriving DecidableEq, Repr

/-- Whether a bare `raise v` would actually raise `v` (Python: `v` is a
`BaseException` instance). -/
def raisable : PyVal → Bool
  | PyVal.exc _ => true
  | _ => false

/-- An error escaping an embedded operation: a framework `LogicError`
(pluto/exceptions/exceptions.py), a Python `IndexError` from list
indexing, or a re-raised stored value. -/
inductive PyErr where
  | logicError (msg : String) : PyErr
  | indexError : PyErr
  | raised (v : PyVal) : PyErr
deriving DecidableEq, Repr

/- ===================== Event bus (eventbus.py) ===================== -/

/-- A Python event class, as used for keying `PlutoEventBus._handlers`.
`recordable` models `isinstance(event, PlutoRecEvent)` for instances of
this class (i.e. the class is `PlutoRecEvent` or a subclass of it). -/
structure EvClass where
  id : Nat
  recordable : Bool
deriving DecidableEq, Repr

/-- The `PlutoRecEvent` marker class itself (pluto/event/event.py).  It is
recordable: an instance of `PlutoRecEvent` satisfies
`isinstance(event, PlutoRecEvent)`. -/
def PlutoRecEventClass : EvClass := ⟨0, true⟩

/-- One registered handler in `PlutoEventBus._handlers`: the event class it
was registered under, the handler's identity, how long one invocation of
the handler runs (in ticks), and whether the invocation raises. -/
structure HandlerEntry where
  cls : EvClass
  handler : Nat
  duration : Nat
  raises : Bool
deriving DecidableEq, Repr

/-- The event-bus state: the flattened contents of the
`self._handlers` dict.  `register_handler` appends to the per-class list,
which over the flattened representation is an append preserving
registration order. -/
structure PlutoEventBus where
  handlers : List HandlerEntry
deriving DecidableEq, Repr

/-- `self._handlers.get(cls, [])`: the handlers registered for exactly the
class `c` (dict lookup keys on the exact class, no inheritance walk). -/
def classHandlers (bus : PlutoEventBus) (c : EvClass) : List HandlerEntry :=
  bus.handlers.filter (fun en => en.cls = c)

/-- `PlutoEventBus.register_handler(cls, handler)` (eventbus.py:54-65):
appends the handler to the list for the class, duplicates allowed. -/
def PlutoEventBus.registerHandler (bus : PlutoEventBus) (en : HandlerEntry) :
    PlutoEventBus :=
  ⟨bus.handlers ++ [en]⟩

/-- The handler resolution of `PlutoEventBus.post` (eventbus.py:110-112):
`handlers = self._handlers.get(type(event), []).copy()` and then, when
`isinstance(event, PlutoRecEvent)`, `handlers += self._handlers.get(PlutoRecEvent, [])`. -/
def resolveHandlers (bus : PlutoEventBus) (c : EvClass) : List HandlerEntry :=
  classHandlers bus c ++
    (if c.recordable then classHandlers bus PlutoRecEventClass else [])

/-- The observable outcome of one call to `PlutoEventBus.post`:
which handlers got one delivery submitted, whether the no-handler warning
was logged, the tick (from the call at tick 0) at which `post` returns to
its caller, and whether a handler exception is re-raised to the caller. -/
structure PostOutcome where
  dispatched : List Nat
  warned : Bool
  returnTime : Nat
  raisedToCaller : Bool
deriving DecidableEq, Repr

/-- The tick at which all handler invocations for the resolved set have
completed, assuming each submitted task starts at tick 0 (the resolved
sets in all theorems stay within the pool bound `max_workers=10`, so the
submitted tasks do run concurrently). -/
def handlersCompleteTime (bus : PlutoEventBus) (c : EvClass) : Nat :=
  ((resolveHandlers bus c).map (fun en => en.duration)).foldr max 0

/-- `PlutoEventBus.post(event, wait)` (eventbus.py:80-127).  When the
resolved handler list is empty, a warning is logged and the empty futures
list is returned at once.  Otherwise each handler is submitted to a
`ThreadPoolExecutor(max_workers=10)` opened in a `with` block; leaving the
`with` block calls `executor.shutdown(wait=True)`, which joins every
submitted future, so `post` returns only at the tick when the slowest
handler has completed - for both values of `wait`.  `wait=True`
additionally drains `as_completed(futures)` calling `fut.result()`, which
re-raises the first handler exception to the caller. -/
def PlutoEventBus.post (bus : PlutoEventBus) (c : EvClass) (wait : Bool) :
    PostOutcome :=
  let hs := resolveHandlers bus c
  if hs.isEmpty then
    { dispatched := [], warned := true, returnTime := 0,
      raisedToCaller := false }
  else
    { dispatched := hs.map (fun en => en.handler),
      warned := false,
      returnTime := (hs.map (fun en => en.duration)).foldr max 0,
      raisedToCaller := wait && hs.any (fun en => en.raises) }

/- ============ Component attribute protocol (component.py) ============ -/

/-- The attribute dictionary of one component instance: an association
list from attribute name to value, covering what
`super().__getattribute__` can see (instance and class attributes). -/
structure CompAttrs where
  name : String
  attrs : List (String × PyVal)
deriving DecidableEq, Repr

/-- Association-list lookup, the embedding of a successful
`super().__getattribute__(attr)` (`some`) versus `AttributeError`
(`none`). -/
def lookupAttr : List (String × PyVal) → String → Option PyVal
  | [], _ => none
  | (k, v) :: rest, a => if k = a then some v else lookupAttr rest a

/-- Association-list write: replace the binding when present, append it
otherwise (Python `super().__setattr__` creates the attribute when it
does not yet exist). -/
def writeAttr : List (String × PyVal) → String → PyVal → List (String × PyVal)
  | [], a, v => [(a, v)]
  | (k, w) :: rest, a, v =>
      if k = a then (a, v) :: rest else (k, w) :: writeAttr rest a v

/-- A `VariableUpdateEvent(component, variable, value)`
(pluto/event/event.py:297-326). -/
structure VariableUpdateEvent where
  component : String
  varName : String
  value : PyVal
deriving DecidableEq, Repr

/-- The embedding of Python's `attr.startswith("_")` for the single-char
pattern: whether the first character of the name is an underscore.
(`String.startsWith` itself is not kernel-computable in this toolchain,
so the check is phrased over the character list.) -/
def privateName (s : String) : Bool :=
  match s.data with
  | [] => false
  | c :: _ => c = '_'

/-- `PlutoComponent.__setattr__` with its `_call_variable_update` wrapper
(component.py:62-95).  The wrapped body first probes
`super().__getattribute__(attr)` - success means the attribute
pre-exists and sets `post_update = True`, `AttributeError` means it does
not and sets `post_update = False` - then performs the effective write
and returns `post_update`.  The wrapper then posts one
`VariableUpdateEvent(self.name, attr, value)` exactly when the body
returned `True` and `attr` does not start with an underscore.  The
returned pair is (state after the write, events posted after it, in
order). -/
def PlutoComponent.setattr (c : CompAttrs) (attr : String) (value : PyVal) :
    CompAttrs × List VariableUpdateEvent :=
  let postUpdate := (lookupAttr c.attrs attr).isSome
  let written : CompAttrs := { c with attrs := writeAttr c.attrs attr value }
  if postUpdate && !(privateName attr) then
    (written, [⟨c.name, attr, value⟩])
  else
    (written, [])

/- ====== Component registry (component.py:17-28, process-wide) ====== -/

/-- The process-wide `PlutoComponent._components` list of names. -/
abbrev Registry := List String

/-- The registration step inside `PlutoComponent.__init__`
(component.py:23-27): under the class lock, raise `RuntimeError` when the
name is already present, otherwise append it. -/
def PlutoComponent.registerName (reg : Registry) (name : String) :
    Except String Registry :=
  if name ∈ reg then
    Except.error ("A Component already exists with name " ++ name)
  else
    Except.ok (reg ++ [name])

/-- The operations of a component's lifetime that could conceivably touch
the process-wide name list.  Constructing a component runs the
registration step; `stop()` (abstract in the base class, overridden by
subclasses) and destruction never touch `PlutoComponent._components` -
no code in the repository removes from that list. -/
inductive CompOp where
  | construct (name : String) : CompOp
  | stopComponent : CompOp
  | destroyComponent : CompOp
deriving DecidableEq, Repr

/-- Effect of one lifetime operation on the process-wide name list.  A
failing construction (duplicate name) leaves the list unchanged because
the `RuntimeError` is raised before the append. -/
def applyCompOp (reg : Registry) : CompOp → Registry
  | CompOp.construct n =>
      match PlutoComponent.registerName reg n with
      | Except.ok reg2 => reg2
      | Except.error _ => reg
  | CompOp.stopComponent => reg
  | CompOp.destroyComponent => reg

/-- Effect of a sequence of lifetime operations on the name list. -/
def applyCompOps (reg : Registry) : List CompOp → Registry
  | [] => reg
  | op :: rest => applyCompOps (applyCompOp reg op) rest

/- ============ Instruction runner (scheduler/instruction.py) ============ -/

/-- The state of one `PlutoInstructionRunner`: the `_started` and
`_finished` threading events, the single `_result` slot (initially
`None`), and the wrapped instruction's description (used in the
already-started error message). -/
structure PlutoInstructionRunner where
  desc : String
  started : Bool
  finished : Bool
  result : PyVal
deriving DecidableEq, Repr

/-- A freshly constructed runner (instruction.py:23-29). -/
def mkRunner (desc : String) : PlutoInstructionRunner :=
  { desc := desc, started := false, finished := false, result := PyVal.pyNone }

/-- How the wrapped instruction's `run` terminated on the worker thread:
returning a value, or raising an exception. -/
inductive RunOutcome where
  | returned (v : PyVal) : RunOutcome
  | raised (e : String) : RunOutcome
deriving DecidableEq, Repr

/-- `PlutoInstructionRunner._handle_done` (instruction.py:108-116): store
`future.result()` into the single `_result` slot, or, when `run`
raised, store the caught exception object into the same slot; then set
`_finished`.  Nothing records which of the two happened. -/
def PlutoInstructionRunner.handleDone (r : PlutoInstructionRunner)
    (outcome : RunOutcome) : PlutoInstructionRunner :=
  { r with
    result := match outcome with
      | RunOutcome.returned v => v
      | RunOutcome.raised e => PyVal.exc e,
    finished := true }

/-- `PlutoInstructionRunner.start` (instruction.py:38-50): a second start
raises `LogicError`; otherwise set `_started` and submit `run` to a
worker. -/
def PlutoInstructionRunner.startOp (r : PlutoInstructionRunner) :
    Except PyErr PlutoInstructionRunner :=
  if r.started then
    Except.error (PyErr.logicError ("Already started: " ++ r.desc))
  else
    Except.ok { r with started := true }

/-- `PlutoInstructionRunner.wait` (instruction.py:64-78): raises
`LogicError` when not started, otherwise blocks on `_finished` (the
blocking itself has no effect on the state, so it is the identity
here). -/
def PlutoInstructionRunner.waitOp (r : PlutoInstructionRunner) :
    Except PyErr Unit :=
  if !r.started then
    Except.error (PyErr.logicError ("Instruction was not started"))
  else
    Except.ok ()

/-- `PlutoInstructionRunner.result` (instruction.py:80-95): `self.wait()`
(propagating its `LogicError`), then `raise self._result` - which
re-raises the stored value when it is raisable and falls into the
`except TypeError: pass` arm when it is not - then return the stored
value.  Read with `finished = true`; `wait` has already unblocked. -/
def PlutoInstructionRunner.resultOp (r : PlutoInstructionRunner) :
    Except PyErr PyVal :=
  match r.waitOp with
  | Except.error e => Except.error e
  | Except.ok _ =>
      if raisable r.result then
        Except.error (PyErr.raised r.result)
      else
        Except.ok r.result

/-- `PlutoInstructionRunner.stop` (instruction.py:52-62):
`self._instruction.stop()` (an effect on the instruction only), then
`return self.result()` - so before `start` it propagates the
`LogicError` that `result`'s `wait` raises. -/
def PlutoInstructionRunner.stopOp (r : PlutoInstructionRunner) :
    Except PyErr PyVal :=
  r.resultOp

/- ================= Scheduler component (scheduler.py) ================= -/

/-- The state of the `PlutoScheduler` component: the loaded schedules
(abstract identifiers), the `_stopped`/`_started`/`_finished` threading
events, and the current `_index` into the loaded list. -/
structure PlutoScheduler where
  schedules : List Nat
  stopped : Bool
  started : Bool
  finished : Bool
  index : Nat
deriving DecidableEq, Repr

/-- A freshly constructed scheduler (scheduler.py:181-189). -/
def mkScheduler : PlutoScheduler :=
  { schedules := [], stopped := false, started := false, finished := false,
    index := 0 }

/-- `PlutoScheduler.load(schedule)` (scheduler.py:191-209): append (the
non-`PlutoSchedule` rejection is a type-level matter outside this
state model). -/
def PlutoScheduler.load (s : PlutoScheduler) (sched : Nat) : PlutoScheduler :=
  { s with schedules := s.schedules ++ [sched] }

/-- `PlutoScheduler.stop` (scheduler.py:225-232): evaluate
`self._schedules[self._index]` - Python list indexing, raising
`IndexError` when the index is out of range - call the schedule's own
`stop`, then set `_stopped` and clear `_started`. -/
def PlutoScheduler.stopOp (s : PlutoScheduler) :
    Except PyErr PlutoScheduler :=
  match s.schedules.get? s.index with
  | none => Except.error PyErr.indexError
  | some _ => Except.ok { s with stopped := true, started := false }

/-- `PlutoScheduler.reset` (scheduler.py:246-255), exactly as written:
`if not self._started.is_set(): raise LogicError(...)`, i.e. the
`LogicError` is raised when the scheduler is NOT running, and otherwise
the loaded schedules are cleared and `_stopped`/`_finished` cleared. -/
def PlutoScheduler.reset (s : PlutoScheduler) :
    Except PyErr PlutoScheduler :=
  if !s.started then
    Except.error
      (PyErr.logicError ("Cannot reset scheduler whilst running a schedule"))
  else
    Except.ok { s with schedules := [], stopped := false, finished := false }

/-- `PlutoScheduler._run_next` (scheduler.py:263-274): when `_stopped` is
set, return `False`; otherwise index `self._schedules[self._index]`
(raising `IndexError` out of range), run that schedule, increment the
index, and return whether the incremented index is still within the
loaded list. -/
def PlutoScheduler.runNext (s : PlutoScheduler) :
    Except PyErr (PlutoScheduler × Bool) :=
  if s.stopped then
    Except.ok (s, false)
  else
    match s.schedules.get? s.index with
    | none => Except.error PyErr.indexError
    | some _ =>
        let s2 := { s with index := s.index + 1 }
        Except.ok (s2, decide (s2.index < s2.schedules.length))

/-- The `while self._run_next(): continue` loop of `PlutoScheduler._run`
(scheduler.py:257-261), with fuel.  The fuel is only a termination
device: `PlutoScheduler.runAll` supplies enough for the loop to reach
its own exit. -/
def PlutoScheduler.runSteps : Nat → PlutoScheduler →
    Except PyErr PlutoScheduler
  | 0, s => Except.ok s
  | fuel + 1, s =>
      match s.runNext with
      | Except.error e => Except.error e
      | Except.ok (s2, cont) =>
          if cont then PlutoScheduler.runSteps fuel s2 else Except.ok s2

/-- `PlutoScheduler._run` (scheduler.py:257-261): reset `_index` to 0 and
run `_run_next` until it returns `False` (this is the body submitted to
the background worker by `run()`). -/
def PlutoScheduler.runAll (s : PlutoScheduler) :
    Except PyErr PlutoScheduler :=
  PlutoScheduler.runSteps (s.schedules.length + 1) { s with index := 0 }

/- ======= Wait runners and WaitSeconds (wait.py, wait_util.py) ======= -/

/-- `BlockingWait(block_for).run(stop_running)` (wait_util.py:72-93):
returns
`not stop_running.wait(timeout=block_for)`.  Given the tick at which
`stop_running` becomes set (`none` = never), this yields the completion
tick and the boolean result. -/
def blockingWaitRun (blockFor : Nat) (stopRunningAt : Option Nat) :
    Nat × Bool :=
  match stopRunningAt with
  | none => (blockFor, true)
  | some t => if t < blockFor then (t, false) else (blockFor, true)

/-- `StopEventWatcher(stop_event).run(stop_running)` (wait_util.py:42-69):
a `sleep(0.1)` polling loop that exits at the first tick after
either event is set, and returns `self._stop_event.is_set()` as observed
at exit.  Arguments are the ticks at which the watched stop event and the
racer-pool `stop_running` event become set (`none` = never); the value is
`none` when the loop never exits. -/
def stopEventWatcherRun (stopEventAt : Option Nat)
    (stopRunningAt : Option Nat) : Option (Nat × Bool) :=
  match stopEventAt, stopRunningAt with
  | none, none => none
  | some te, none => some (te + 1, true)
  | none, some tr => some (tr + 1, false)
  | some te, some tr =>
      let exit := min te tr + 1
      some (exit, decide (te ≤ exit))

/-- `WaitMixin.execute_wait` / `WaitExecutor` (wait_util.py:281-325):
all racers run concurrently (pool bound `max_workers=3`, and at
most three racers are ever passed); the first future to complete sets
`stop_running` and its result is captured as the instruction's result;
later completions are discarded.  Over pre-computed undisturbed
completion times this picks the racer with the minimal completion tick
(earlier list position on ties, matching submission order).  `none` means
no racer ever completes. -/
def executeWait : List (Option (Nat × Bool)) → Option (Nat × Bool)
  | [] => none
  | none :: rest => executeWait rest
  | some (t, b) :: rest =>
      match executeWait rest with
      | none => some (t, b)
      | some (t2, b2) => if t ≤ t2 then some (t, b) else some (t2, b2)

/-- `WaitSeconds(seconds).run` (wait.py:44-63): race
`BlockingWait(self._wait_seconds)` against
`StopEventWatcher(self._stop)`.  `stopAt` is the tick at which
`WaitSeconds.stop()` sets the `self._stop` event (`none` = never); the
value is the boolean returned by `run` (`none` unreachable: the blocking
racer always completes).  Within the race each racer sees
`stop_running` unset until the winner completes, since `stop_running` is
only set by the first completion, whose result is already captured. -/
def WaitSeconds.run (seconds : Nat) (stopAt : Option Nat) : Option Bool :=
  (executeWait
    [some (blockingWaitRun seconds none),
     stopEventWatcherRun stopAt none]).map (fun r => r.2)

/- ================== Repeat instructions (repeat.py) ================== -/

/-- The error message of the `LogicError` raised by the three repeat
instructions when the child is still running as the `repeat_every` timer
fires (repeat.py:77-79, 186-188, 288-290). -/
def unableMsg (desc : String) (every : Nat) : String :=
  desc ++ (": Still running! Unable to repeat every ") ++ toString every
    ++ ("s")

/-- The externally observable facts of one iteration of a repeat loop:
whether `runner.finished` was true when `self._timer.wait(...)` returned,
and the readings of the (monotone, set-only) `self._stop` event at the
raise guard and at the loop-end / loop-head check.  Since the stop event
is never cleared while `run` executes, a `true` at the guard implies
`true` at the later check; the embeddings below read the later check as
`stopAtGuard || stopAtCheck` to hard-code that monotonicity. -/
structure RepIter where
  childFinishedAtTimer : Bool
  stopAtGuard : Bool
  stopAtCheck : Bool
deriving DecidableEq, Repr

/-- One iteration of a repeat loop, like `RepIter`, extended with the
reading of `self._elapsed` at `RepeatFor`'s termination check. -/
structure RepIterFor where
  childFinishedAtTimer : Bool
  stopAtGuard : Bool
  stopAtCheck : Bool
  elapsedAtCheck : Nat
deriving DecidableEq, Repr

/-- `RepeatTimes.run` (repeat.py:160-202) over a trace of per-iteration
observations; each trace entry is one iteration the `while not
self._stop.is_set()` loop entered.  The child is assumed to return
normally (child errors, re-raised by `runner.result()`, are outside the
traces considered here).  Result: `Except.error` when `run` raises the
`LogicError`; `Except.ok (some counter)` when the loop exits (by external
stop or by completing the requested iterations), with the final
`self._counter`; `Except.ok none` when the trace ends while the loop
would still continue. -/
def RepeatTimes.runAux (desc : String) (every iters : Nat) :
    Nat → List RepIter → Except PyErr (Option Nat)
  | _, [] => Except.ok none
  | counter, o :: rest =>
      if every ≠ 0 ∧ o.childFinishedAtTimer = false then
        -- The timer fired with the child still running: `runner.stop()`,
        -- then `if not self._stop.is_set(): raise LogicError(...)`
        -- (repeat.py:183-188).
        if o.stopAtGuard = false then
          Except.error (PyErr.logicError (unableMsg desc every))
        else
          -- stop was set: no raise; `runner.result()` is reaped, the
          -- loop-end check sees the stop set (monotone) so the counter
          -- is not updated, and the loop condition exits.
          Except.ok (some counter)
      else
        -- child finished before the timer (or `repeat_every == 0`):
        -- `result = runner.result()`, then the loop-end check
        -- (repeat.py:194-198).
        if o.stopAtGuard || o.stopAtCheck then
          Except.ok (some counter)
        else if counter < iters then
          RepeatTimes.runAux desc every iters (counter + 1) rest
        else
          Except.ok (some counter)

/-- `RepeatFor.run` (repeat.py:60-91) over a trace of per-iteration
observations, under the same conventions as `RepeatTimes.runAux`.  The
loop-end check sets the stop flag once `self._elapsed >= self._seconds`
(repeat.py:85-87). -/
def RepeatFor.runAux (desc : String) (every seconds : Nat) :
    List RepIterFor → Except PyErr (Option Unit)
  | [] => Except.ok none
  | o :: rest =>
      if every ≠ 0 ∧ o.childFinishedAtTimer = false then
        -- repeat.py:72-79: `runner.stop()`, then raise unless stopped.
        if o.stopAtGuard = false then
          Except.error (PyErr.logicError (unableMsg desc every))
        else
          Except.ok (some ())
      else
        if o.stopAtGuard || o.stopAtCheck then
          Except.ok (some ())
        else if o.elapsedAtCheck ≥ seconds then
          Except.ok (some ())
        else
          RepeatFor.runAux desc every seconds rest

/-- `RepeatForever.run` (repeat.py:265-296) over a trace of per-iteration
observations, under the same conventions as `RepeatTimes.runAux`.
Unlike the other two repeat instructions, when the timer fires with the
child still running the `LogicError` is raised UNCONDITIONALLY
(repeat.py:284-290 has no `if not self._stop.is_set()` guard around the
raise).  `stopAtCheck` is the loop-head reading of `self._stop` before
the next iteration. -/
def RepeatForever.runAux (desc : String) (every : Nat) :
    List RepIter → Except PyErr (Option Unit)
  | [] => Except.ok none
  | o :: rest =>
      if every ≠ 0 ∧ o.childFinishedAtTimer = false then
        Except.error (PyErr.logicError (unableMsg desc every))
      else
        if o.stopAtGuard || o.stopAtCheck then
          Except.ok (some ())
        else
          RepeatForever.runAux desc every rest

/- ========================= Helper lemmas ========================= -/

/-- Writing a binding makes it the one found by lookup. -/
theorem lookupAttr_writeAttr (l : List (String × PyVal)) (a : String)
    (v : PyVal) : lookupAttr (writeAttr l a v) a = some v := by
  induction l with
  | nil => simp [writeAttr, lookupAttr]
  | cons kv rest ih =>
      obtain ⟨k, w⟩ := kv
      by_cases hk : k = a
      · simp [writeAttr, lookupAttr, hk]
      · simp [writeAttr, lookupAttr, hk, ih]

/-- The process-wide component-name list only ever grows: no lifetime
operation removes a name. -/
theorem mem_applyCompOps (ops : List CompOp) (reg : Registry) (n : String)
    (h : n ∈ reg) : n ∈ applyCompOps reg ops := by
  induction ops generalizing reg with
  | nil => simpa [applyCompOps] using h
  | cons op rest ih =>
      refine ih (applyCompOp reg op) ?_
      cases op with
      | construct m =>
          by_cases hm : m ∈ reg
          · simpa [applyCompOp, PlutoComponent.registerName, hm] using h
          · simp [applyCompOp, PlutoComponent.registerName, hm]
            exact Or.inl h
      | stopComponent => simpa [applyCompOp] using h
      | destroyComponent => simpa [applyCompOp] using h

/-- C5 — every assignment to an attribute of a registered component posts
exactly one `VariableUpdate` event (carrying the component name, the
attribute name and the written value) when the attribute name is public
(no leading underscore) and pre-existed; it posts no event when the name
is private or the attribute did not pre-exist; and in every case the
effective write has happened, with the stored value being exactly the
value the event carries. -/
theorem c5_setattr_posts_exactly_one (c : CompAttrs) (attr : String)
    (v : PyVal) :
    (privateName attr = false → (lookupAttr c.attrs attr).isSome = true →
      (PlutoComponent.setattr c attr v).2 = [⟨c.name, attr, v⟩])
    ∧ (privateName attr = true ∨ (lookupAttr c.attrs attr).isSome = false →
      (PlutoComponent.setattr c attr v).2 = [])
    ∧ lookupAttr (PlutoComponent.setattr c attr v).1.attrs attr = some v := by
  refine ⟨?_, ?_, ?_⟩
  · intro hpub hpre
    simp [PlutoComponent.setattr, hpub, hpre]
  · intro h
    rcases h with h | h
    · simp [PlutoComponent.setattr, h]
    · simp [PlutoComponent.setattr, h]
  · by_cases hpre : (lookupAttr c.attrs attr).isSome = true
    · by_cases hpub : privateName attr = true
      · simp [PlutoComponent.setattr, hpre, hpub, lookupAttr_writeAttr]
      · simp [PlutoComponent.setattr, hpre, hpub, lookupAttr_writeAttr]
    · simp [PlutoComponent.setattr, hpre, lookupAttr_writeAttr]

/-- Witness for C5: writing `777` to the pre-existing public attribute
`bar` of component `comp` posts exactly the one matching event. -/
theorem c5_setattr_posts_exactly_one_witness :
    (PlutoComponent.setattr ⟨("comp"), [(("bar"), PyVal.num 1)]⟩ ("bar")
      (PyVal.num 777)).2 = [⟨("comp"), ("bar"), PyVal.num 777⟩] :=
  (c5_setattr_posts_exactly_one ⟨("comp"), [(("bar"), PyVal.num 1)]⟩ ("bar")
    (PyVal.num 777)).1 (by decide) (by decide)

/-- C7 — runner lifecycle faults: on a runner that has not been started,
`wait`, `result` and `stop` all raise the `LogicError`; and whenever a
`start` succeeds, a second `start` on the resulting runner raises the
already-started `LogicError`. -/
theorem c7_runner_transitions (r : PlutoInstructionRunner) :
    (r.started = false →
      r.waitOp = Except.error (PyErr.logicError ("Instruction was not started"))
      ∧ r.resultOp =
          Except.error (PyErr.logicError ("Instruction was not started"))
      ∧ r.stopOp =
          Except.error (PyErr.logicError ("Instruction was not started")))
    ∧ (∀ r2 : PlutoInstructionRunner, r.startOp = Except.ok r2 →
        r2.startOp =
          Except.error (PyErr.logicError (("Already started: ") ++ r.desc))) := by
  constructor
  · intro h
    refine ⟨?_, ?_, ?_⟩ <;>
      simp [PlutoInstructionRunner.waitOp, PlutoInstructionRunner.resultOp,
        PlutoInstructionRunner.stopOp, h]
  · intro r2 h
    by_cases hs : r.started = true
    · simp [PlutoInstructionRunner.startOp, hs] at h
    · simp only [Bool.not_eq_true] at hs
      simp [PlutoInstructionRunner.startOp, hs] at h
      subst h
      simp [PlutoInstructionRunner.startOp]

/-- Witness for C7: on a fresh runner, `wait` raises the not-started
`LogicError`, and a second `start` after a successful first raises the
already-started `LogicError`. -/
theorem c7_runner_transitions_witness :
    (mkRunner ("inst")).waitOp =
      Except.error (PyErr.logicError ("Instruction was not started"))
    ∧ ({ mkRunner ("inst") with started := true } : PlutoInstructionRunner).startOp =
      Except.error (PyErr.logicError (("Already started: ") ++ ("inst"))) :=
  ⟨((c7_runner_transitions (mkRunner ("inst"))).1 (by decide)).1,
    (c7_runner_transitions (mkRunner ("inst"))).2
      { mkRunner ("inst") with started := true } rfl⟩

/-- C8 — the runner's single result slot: when the instruction's `run`
returns normally with a value that is itself an exception object,
`result()` raises that value; the stored state is literally identical to
the one produced when `run` raises that exception, so `result()`
distinguishes success from failure only by the raisability of the stored
value; a non-raisable returned value is returned as-is. -/
theorem c8_result_slot_raisability (r : PlutoInstructionRunner)
    (h : r.started = true) (e : String) (v : PyVal) :
    (r.handleDone (RunOutcome.returned (PyVal.exc e))).resultOp =
      Except.error (PyErr.raised (PyVal.exc e))
    ∧ r.handleDone (RunOutcome.returned (PyVal.exc e)) =
        r.handleDone (RunOutcome.raised e)
    ∧ (raisable v = false →
        (r.handleDone (RunOutcome.returned v)).resultOp = Except.ok v) := by
  refine ⟨?_, ?_, ?_⟩
  · simp [PlutoInstructionRunner.handleDone, PlutoInstructionRunner.resultOp,
      PlutoInstructionRunner.waitOp, raisable, h]
  · simp [PlutoInstructionRunner.handleDone]
  · intro hv
    simp [PlutoInstructionRunner.handleDone, PlutoInstructionRunner.resultOp,
      PlutoInstructionRunner.waitOp, h, hv]

/-- Witness for C8: a started runner whose instruction returned the
exception object `SillyError` has `result()` raise exactly that value. -/
theorem c8_result_slot_raisability_witness :
    (({ mkRunner ("inst") with started := true } : PlutoInstructionRunner).handleDone
        (RunOutcome.returned (PyVal.exc ("SillyError")))).resultOp =
      Except.error (PyErr.raised (PyVal.exc ("SillyError"))) :=
  (c8_result_slot_raisability { mkRunner ("inst") with started := true }
    (by decide) ("SillyError") PyVal.pyNone).1

/-- C9 — the process-wide component-name list is append-only: once a name
is on the list, no later sequence of component constructions, stops or
destructions removes it, so constructing any later component with that
name raises the duplicate-name `RuntimeError` for the remainder of the
process. -/
theorem c9_registry_append_only (reg : Registry) (ops : List CompOp)
    (n : String) (h : n ∈ reg) :
    PlutoComponent.registerName (applyCompOps reg ops) n =
      Except.error (("A Component already exists with name ") ++ n) := by
  have hmem := mem_applyCompOps ops reg n h
  simp [PlutoComponent.registerName, hmem]

/-- Witness for C9: with `scheduler` registered, constructing another
component named `scheduler` still fails after a later construction, a
stop and a destruction. -/
theorem c9_registry_append_only_witness :
    PlutoComponent.registerName
      (applyCompOps [("scheduler")]
        [CompOp.construct ("owlhal"), CompOp.stopComponent,
          CompOp.destroyComponent]) ("scheduler") =
      Except.error (("A Component already exists with name ") ++ ("scheduler")) :=
  c9_registry_append_only [("scheduler")]
    [CompOp.construct ("owlhal"), CompOp.stopComponent,
      CompOp.destroyComponent] ("scheduler") (by decide)

/-- The `_run` loop of the scheduler, run to completion: starting
unstopped inside the loaded list, with enough fuel, it ends with
`_index` equal to the number of loaded schedules and the loaded list
untouched. -/
theorem runSteps_completes (fuel : Nat) :
    ∀ s : PlutoScheduler, s.stopped = false →
      s.index < s.schedules.length →
      s.schedules.length ≤ s.index + fuel →
      PlutoScheduler.runSteps fuel s =
        Except.ok { s with index := s.schedules.length } := by
  induction fuel with
  | zero =>
      intro s _ hlt hle
      omega
  | succ fuel ih =>
      intro s hstop hlt hle
      have hget : s.schedules[s.index]? = some (s.schedules[s.index]) :=
        List.getElem?_eq_getElem hlt
      by_cases hcont : s.index + 1 < s.schedules.length
      · have hrec := ih { s with index := s.index + 1 } (by simpa using hstop)
          (by simpa using hcont) (by simp; omega)
        simp [hstop] at hrec
        simp [PlutoScheduler.runSteps, PlutoScheduler.runNext, hstop, hget,
          hcont, hrec]
      · have hlen : s.index + 1 = s.schedules.length := by omega
        simp [PlutoScheduler.runSteps, PlutoScheduler.runNext, hstop, hget,
          hcont, hlen]

/-- C10 — `PlutoScheduler.stop` indexes `self._schedules[self._index]`
without a bounds check: on a scheduler with no schedule loaded it raises
`IndexError`; and a completed (unstopped) run over a non-empty loaded
list leaves `_index` equal to the list length, so calling `stop` after
the run has advanced past the last loaded schedule also raises
`IndexError` rather than being a no-op. -/
theorem c10_stop_out_of_bounds (s : PlutoScheduler)
    (hstop : s.stopped = false) (hne : s.schedules ≠ []) :
    PlutoScheduler.stopOp mkScheduler = Except.error PyErr.indexError
    ∧ s.runAll = Except.ok { s with index := s.schedules.length }
    ∧ PlutoScheduler.stopOp { s with index := s.schedules.length } =
        Except.error PyErr.indexError := by
  refine ⟨by simp [PlutoScheduler.stopOp, mkScheduler], ?_, ?_⟩
  · have hlen : 0 < s.schedules.length := List.length_pos.mpr hne
    have := runSteps_completes (s.schedules.length + 1)
      { s with index := 0 } (by simpa using hstop) (by simpa using hlen)
      (by simp)
    simpa [PlutoScheduler.runAll] using this
  · have : s.schedules.get? s.schedules.length = none :=
      List.get?_eq_none.mpr (by simp)
    simp [PlutoScheduler.stopOp, this]

/-- Witness for C10: a fresh scheduler with one loaded schedule runs to
completion leaving the index one past the end, and `stop` then raises
`IndexError`; `stop` on the fresh empty scheduler raises `IndexError`
directly. -/
theorem c10_stop_out_of_bounds_witness :
    PlutoScheduler.stopOp mkScheduler = Except.error PyErr.indexError
    ∧ (mkScheduler.load 3).runAll =
        Except.ok { mkScheduler.load 3 with index := (mkScheduler.load 3).schedules.length }
    ∧ PlutoScheduler.stopOp
        { mkScheduler.load 3 with index := (mkScheduler.load 3).schedules.length } =
        Except.error PyErr.indexError :=
  c10_stop_out_of_bounds (mkScheduler.load 3) (by decide) (by decide)

/-- C3 — what `PlutoScheduler.reset` actually does (scheduler.py:246-255):
the guard is `if not self._started.is_set()`, so the `LogicError` whose
message reads "Cannot reset scheduler whilst running a schedule" is
raised exactly when the scheduler is NOT running, and when a run IS in
progress (`_started` set) `reset` succeeds and clears the loaded
schedules - the inverse of the claimed (and of the error message's own)
behaviour. -/
theorem c3_reset_guard_inverted (s : PlutoScheduler) :
    (s.started = false →
      PlutoScheduler.reset s =
        Except.error
          (PyErr.logicError ("Cannot reset scheduler whilst running a schedule")))
    ∧ (s.started = true →
      PlutoScheduler.reset s =
        Except.ok { s with schedules := [], stopped := false, finished := false }) := by
  constructor
  · intro h
    simp [PlutoScheduler.reset, h]
  · intro h
    simp [PlutoScheduler.reset, h]

/-- Witness for C3: `reset` on a freshly constructed (hence not running)
scheduler raises the `LogicError`, and `reset` on a scheduler whose run
is in progress clears the schedules. -/
theorem c3_reset_guard_inverted_witness :
    PlutoScheduler.reset mkScheduler =
      Except.error
        (PyErr.logicError ("Cannot reset scheduler whilst running a schedule"))
    ∧ PlutoScheduler.reset { mkScheduler.load 3 with started := true } =
      Except.ok { { mkScheduler.load 3 with started := true } with
        schedules := [], stopped := false, finished := false } :=
  ⟨(c3_reset_guard_inverted mkScheduler).1 (by decide),
    (c3_reset_guard_inverted { mkScheduler.load 3 with started := true }).2
      (by decide)⟩

/-- C6 — handler resolution of `post`: an entry is in the resolved
handler set exactly when it is registered for the event's exact class,
or the event is recordable and the entry is registered for the
`PlutoRecEvent` marker; and when the resolved set is empty, `post` logs
the warning and dispatches no work (the returned future list is
empty). -/
theorem c6_handler_resolution (bus : PlutoEventBus) (c : EvClass)
    (en : HandlerEntry) (wait : Bool) :
    (en ∈ resolveHandlers bus c ↔
      (en ∈ classHandlers bus c ∨
        (c.recordable = true ∧ en ∈ classHandlers bus PlutoRecEventClass)))
    ∧ (resolveHandlers bus c = [] →
        (bus.post c wait).warned = true ∧ (bus.post c wait).dispatched = []) := by
  constructor
  · by_cases hr : c.recordable = true
    · simp [resolveHandlers, hr]
    · simp only [Bool.not_eq_true] at hr
      simp [resolveHandlers, hr]
  · intro h
    simp [PlutoEventBus.post, h]

/-- Witness for C6: on a bus with a single handler registered for the
`PlutoRecEvent` marker, posting a non-recordable event resolves no
handlers, warns, and dispatches nothing. -/
theorem c6_handler_resolution_witness :
    (PlutoEventBus.post ⟨[⟨PlutoRecEventClass, 7, 1, false⟩]⟩ ⟨1, false⟩
      false).warned = true
    ∧ (PlutoEventBus.post ⟨[⟨PlutoRecEventClass, 7, 1, false⟩]⟩ ⟨1, false⟩
      false).dispatched = [] :=
  (c6_handler_resolution ⟨[⟨PlutoRecEventClass, 7, 1, false⟩]⟩ ⟨1, false⟩
    ⟨⟨1, false⟩, 7, 1, false⟩ false).2 (by decide)

/-- C1 — evaluation at the failing input: a bus with one handler (for the
posted event's class) taking 5 ticks.  `post(event, wait=False)` returns
at tick 5, the very tick at which the handler set completes, because the
`with ThreadPoolExecutor(...)` block of `post` joins all submitted
futures on exit; hence "post returns only when all handlers have
completed" holds with `wait = false`, refuting the claimed equivalence
with `wait = true`. -/
theorem c1_post_blocks_until_handlers_complete :
    (PlutoEventBus.post ⟨[⟨⟨1, false⟩, 7, 5, false⟩]⟩ ⟨1, false⟩
        false).returnTime =
      handlersCompleteTime ⟨[⟨⟨1, false⟩, 7, 5, false⟩]⟩ ⟨1, false⟩
    ∧ handlersCompleteTime ⟨[⟨⟨1, false⟩, 7, 5, false⟩]⟩ ⟨1, false⟩ = 5
    ∧ ¬ (((PlutoEventBus.post ⟨[⟨⟨1, false⟩, 7, 5, false⟩]⟩ ⟨1, false⟩
            false).returnTime ≥
          handlersCompleteTime ⟨[⟨⟨1, false⟩, 7, 5, false⟩]⟩ ⟨1, false⟩) ↔
        (false = true)) := by
  decide

/-- C2 — counterexample to the claim as stated: `WaitSeconds(10)` (100
ticks) stopped after 1 s (tick 10) returns `true`, not the claimed
`false`: the `StopEventWatcher` racer wins the race and returns
`self._stop_event.is_set()`, which is `true`. -/
theorem c2_counterexample :
    WaitSeconds.run 100 (some 10) = some true
    ∧ WaitSeconds.run 100 (some 10) ≠ some false := by
  decide

/-- C2 (amended) — `WaitSeconds(seconds).run` returns `true` in every
case: when the full duration elapses (the `BlockingWait` racer wins with
`true`) and equally when `stop()` is called first (the `StopEventWatcher`
racer wins with `true`); an early stop only shortens the time `run`
blocks. -/
theorem c2_wait_seconds_returns_true (seconds : Nat) (stopAt : Option Nat) :
    WaitSeconds.run seconds stopAt = some true := by
  cases stopAt with
  | none =>
      simp [WaitSeconds.run, executeWait, blockingWaitRun, stopEventWatcherRun]
  | some t =>
      simp [WaitSeconds.run, executeWait, blockingWaitRun, stopEventWatcherRun]
      split <;> simp

/-- C4 — counterexample to the claim as stated: for `RepeatForever` with
`repeat_every = 5`, an iteration in which the child is still running when
the timer fires while the repeat itself HAS been stopped
(`stopAtGuard = true`) still raises the "unable to repeat every"
`LogicError`, because repeat.py:284-290 has no `if not
self._stop.is_set()` guard around the raise. -/
theorem c4_counterexample :
    RepeatForever.runAux ("child") 5 [⟨false, true, true⟩] =
      Except.error (PyErr.logicError (unableMsg ("child") 5)) := by
  simp [RepeatForever.runAux]

/-- C4 (amended) — with `repeat_every = t > 0` and the child still
running when the timer fires: `RepeatFor` and `RepeatTimes` stop the
child and raise the "unable to repeat every" `LogicError` exactly when
the repeat itself was not stopped; `RepeatForever` raises it
unconditionally, even when the repeat was stopped. -/
theorem c4_repeat_every_guard (desc : String)
    (every iters counter seconds : Nat) (o : RepIter) (oF : RepIterFor)
    (rest : List RepIter) (restF : List RepIterFor) (he : every ≠ 0)
    (h1 : o.childFinishedAtTimer = false)
    (h2 : oF.childFinishedAtTimer = false) :
    RepeatTimes.runAux desc every iters counter (o :: rest) =
      (if o.stopAtGuard = true then Except.ok (some counter)
       else Except.error (PyErr.logicError (unableMsg desc every)))
    ∧ RepeatFor.runAux desc every seconds (oF :: restF) =
      (if oF.stopAtGuard = true then Except.ok (some ())
       else Except.error (PyErr.logicError (unableMsg desc every)))
    ∧ RepeatForever.runAux desc every (o :: rest) =
      Except.error (PyErr.logicError (unableMsg desc every)) := by
  refine ⟨?_, ?_, ?_⟩
  · cases hg : o.stopAtGuard <;> simp [RepeatTimes.runAux, he, h1, hg]
  · cases hg : oF.stopAtGuard <;> simp [RepeatFor.runAux, he, h2, hg]
  · simp [RepeatForever.runAux, he, h1]

/-- Witness for C4 (amended): a `RepeatTimes` iteration whose timer fires
with the child unfinished but with the repeat already stopped returns
normally, and the same iteration with the repeat not stopped raises the
`LogicError`. -/
theorem c4_repeat_every_guard_witness :
    RepeatTimes.runAux ("child") 5 3 1 [⟨false, true, true⟩] =
      Except.ok (some 1)
    ∧ RepeatForever.runAux ("child") 5 [⟨false, true, true⟩] =
      Except.error (PyErr.logicError (unableMsg ("child") 5)) := by
  have h := c4_repeat_every_guard ("child") 5 3 1 7 ⟨false, true, true⟩
    ⟨false, false, false, 0⟩ [] [] (by decide) (by decide) (by decide)
  exact ⟨by simpa using h.1, h.2.2⟩
